import Mathlib

/-!
Verification development for the camera-pipeline C library.

The definitions below are a shallow embedding of the parts of the source
relevant to the registry (camera_processor.c), the per-camera worker
(camera_thread.c) and the frame delivery pool (callback_utils.c).
C doubles are modelled as rationals, FFmpeg's AV_NOPTS_VALUE as
Option.none, and fallible system calls (malloc, pthread_create,
pthread_tryjoin_np) as boolean / enumerated oracles supplied by the
caller.  Side effects that leave no trace in the modelled state
(freeing memory, writing to the interrupt pipe, sleeping) are recorded
as explicit event lists so that ordering claims can be stated.
-/

namespace CameraPipeline

/-- Camera states, mirroring camera_state_t (camera_thread.h). -/
inductive CamState
  | stopped
  | connecting
  | connected
  | disconnected
  | waitingReconnect
  | reconnecting
deriving DecidableEq

/-- Model of update_camera_status (camera_thread.c): given the pipeline's
current state and a requested new state, returns the state after the call
together with the status callback fired (none when the update is
suppressed because the state is unchanged). -/
def update_camera_status (st : CamState) (new_state : CamState) :
    CamState × Option CamState :=
  if st = new_state then (st, none) else (new_state, some new_state)

/-- Runs a sequence of status updates from an initial state, collecting the
state codes delivered to the host's status callback in order. -/
def run_status_updates (st : CamState) : List CamState → CamState × List CamState
  | [] => (st, [])
  | u :: rest =>
    let r := update_camera_status st u
    let rec_result := run_status_updates r.1 rest
    (rec_result.1, r.2.toList ++ rec_result.2)

theorem run_status_updates_aux (us : List CamState) (st : CamState) :
    List.Chain' (fun a b => a ≠ b) (run_status_updates st us).2 ∧
      ∀ x ∈ (run_status_updates st us).2.head?, x ≠ st := by
  induction us generalizing st with
  | nil => simp [run_status_updates]
  | cons u rest ih =>
    by_cases h : st = u
    · subst h
      simpa [run_status_updates, update_camera_status] using ih st
    · have hrec := ih u
      refine ⟨?_, ?_⟩
      · simp only [run_status_updates, update_camera_status, if_neg h, Option.toList_some,
          List.singleton_append]
        rw [List.chain'_cons']
        exact ⟨fun b hb => fun hub => (hrec.2 b hb) hub.symm, hrec.1⟩
      · intro x hx
        simp only [run_status_updates, update_camera_status, if_neg h, Option.toList_some,
          List.singleton_append, List.head?_cons, Option.mem_def, Option.some.injEq] at hx
        subst hx
        exact fun hxs => h hxs.symm

/-- Claim C10: a status update to the pipeline's current state fires no
callback and changes nothing, and consequently the status-callback stream
observed by the host for one camera never contains two consecutive equal
state codes. -/
theorem status_callbacks_never_repeat :
    (∀ st : CamState, update_camera_status st st = (st, none)) ∧
      ∀ (st : CamState) (us : List CamState),
        List.Chain' (fun a b => a ≠ b) (run_status_updates st us).2 := by
  constructor
  · intro st
    simp [update_camera_status]
  · intro st us
    exact (run_status_updates_aux us st).1

/-- Per-camera worker state relevant to frame skipping and PTS pacing
(fields of camera_thread_context_t used by setup_video_decoder and
process_stream).  PTS values carry Option Int, with none standing for
AV_NOPTS_VALUE; seconds are rationals. -/
structure StreamCtx where
  target_fps : Int
  estimated_source_fps : ℚ
  frame_skip_ratio_q : ℚ
  frame_skip_accumulator : ℚ
  pts_time_base : ℚ
  first_pts : Option Int
  last_sent_pts : Option Int
  last_sent_pts_sec : ℚ
  playback_anchor_mono : ℚ
  early_sleep_threshold_sec : ℚ
  pts_jump_reset_threshold_sec : ℚ
deriving DecidableEq

/-- Initial source-FPS estimate computed by setup_video_decoder from the
container-guessed frame rate: the guess is adopted when strictly between
4 and 65 FPS, otherwise 30 FPS is used. -/
def initial_source_fps (detected : ℚ) : ℚ :=
  if 4 < detected ∧ detected < 65 then detected else 30

/-- Skip-control fields initialized by setup_video_decoder. -/
structure SkipInit where
  ratio_q : ℚ
  count : Int
  accumulator : ℚ
deriving DecidableEq

/-- Skip-ratio initialization in setup_video_decoder: when target_fps is
unset, the source estimate nonpositive, or target_fps at least the source
estimate, no skipping is configured; otherwise the ratio is
source divided by target with its floor as the integer part. -/
def skip_init (target_fps : Int) (source_fps : ℚ) : SkipInit :=
  if target_fps ≤ 0 ∨ source_fps ≤ 0 ∨ source_fps ≤ (target_fps : ℚ) then
    ⟨1, 1, 0⟩
  else
    ⟨source_fps / (target_fps : ℚ), ⌊source_fps / (target_fps : ℚ)⌋, 0⟩

/-- Spec-side estimate for claim C6, written from the claim's words: the
container-guessed rate is kept exactly when it lies in the closed
interval from 5 to 65 FPS, and 30 FPS is used otherwise. -/
def initial_source_fps_claimed (detected : ℚ) : ℚ :=
  if 5 ≤ detected ∧ detected ≤ 65 then detected else 30

/-- Counterexample to claim C6: at a container-guessed rate
of 4.5 FPS the code keeps 4.5 (the code's window is the open interval
from 4 to 65) while the claim, whose window is the closed interval from
5 to 65, demands 30. -/
theorem c6_counterexample :
    initial_source_fps (9 / 2) = 9 / 2 ∧
      initial_source_fps_claimed (9 / 2) = 30 ∧
      initial_source_fps (9 / 2) ≠ initial_source_fps_claimed (9 / 2) := by
  refine ⟨?_, ?_, ?_⟩ <;> norm_num [initial_source_fps, initial_source_fps_claimed]

theorem initial_source_fps_pos (d : ℚ) : 0 < initial_source_fps d := by
  unfold initial_source_fps
  split <;> [linarith [And.left (by assumption : 4 < d ∧ d < 65)]; norm_num]

/-- Claim C6 (amended): the initial source-FPS estimate equals the
container-guessed rate exactly when that rate lies strictly between 4 and
65 FPS and equals 30 FPS otherwise; the estimate is always positive, so
the skip initialization reduces to a two-way split on whether target_fps
is positive and below the estimate. -/
theorem c6_fps_and_skip_init (d : ℚ) (t : Int) :
    initial_source_fps d = (if 4 < d ∧ d < 65 then d else 30) ∧
      0 < initial_source_fps d ∧
      skip_init t (initial_source_fps d) =
        (if 0 < t ∧ (t : ℚ) < initial_source_fps d then
          ⟨initial_source_fps d / (t : ℚ), ⌊initial_source_fps d / (t : ℚ)⌋, 0⟩
        else ⟨1, 1, 0⟩) := by
  have hpos := initial_source_fps_pos d
  refine ⟨rfl, hpos, ?_⟩
  unfold skip_init
  rcases le_or_lt t 0 with ht | ht
  · rw [if_pos (Or.inl ht), if_neg]
    rintro ⟨ht', _⟩
    exact absurd ht (not_le.mpr ht')
  · rcases le_or_lt (initial_source_fps d) (t : ℚ) with hts | hts
    · rw [if_pos (Or.inr (Or.inr hts)), if_neg]
      rintro ⟨_, hlt⟩
      exact absurd hts (not_le.mpr hlt)
    · rw [if_neg, if_pos ⟨ht, hts⟩]
      push_neg
      refine ⟨ht, hpos, hts⟩

/-- No-PTS branch of the frame-skip decision in process_stream: the
accumulator gains one unit; with ratio at most 1 every frame is sent (the
accumulator keeps the incremented value); otherwise the frame is sent
exactly when the accumulator reaches the ratio, in which case the ratio
is subtracted from it.  Returns the send decision and the updated
context. -/
def frame_skip_no_pts (ctx : StreamCtx) : Bool × StreamCtx :=
  let acc := ctx.frame_skip_accumulator + 1
  if ctx.frame_skip_ratio_q ≤ 1 then
    (true, { ctx with frame_skip_accumulator := acc })
  else if ctx.frame_skip_ratio_q ≤ acc then
    (true, { ctx with frame_skip_accumulator := acc - ctx.frame_skip_ratio_q })
  else
    (false, { ctx with frame_skip_accumulator := acc })

/-- A concrete context for the claim C7 counterexample: skip ratio 1,
accumulator 0, all other fields at their post-setup defaults. -/
def c7ctx : StreamCtx :=
  { target_fps := 10
    estimated_source_fps := 30
    frame_skip_ratio_q := 1
    frame_skip_accumulator := 0
    pts_time_base := 1 / 90000
    first_pts := none
    last_sent_pts := none
    last_sent_pts_sec := 0
    playback_anchor_mono := 0
    early_sleep_threshold_sec := 1 / 20
    pts_jump_reset_threshold_sec := 1 }

/-- Counterexample to claim C7: with skip ratio 1 and accumulator 0 a
frame without PTS is sent, and the claim demands that the ratio be
subtracted on every send, which would leave the accumulator at 0; the
code leaves it at 1 because the send came from the ratio-at-most-1 branch
which performs no subtraction. -/
theorem c7_counterexample :
    (frame_skip_no_pts c7ctx).1 = true ∧
      (frame_skip_no_pts c7ctx).2.frame_skip_accumulator = 1 ∧
      (frame_skip_no_pts c7ctx).2.frame_skip_accumulator ≠
        c7ctx.frame_skip_accumulator + 1 - c7ctx.frame_skip_ratio_q := by
  refine ⟨rfl, ?_, ?_⟩ <;> norm_num [frame_skip_no_pts, c7ctx]

/-- Claim C7 (amended): a frame without a valid PTS increments the
accumulator by one unit and is sent exactly when the skip ratio is at
most 1 or the incremented accumulator has reached the ratio; the ratio is
subtracted from the accumulator only on sends decided by the accumulator
threshold, that is, only when the ratio exceeds 1. -/
theorem c7_no_pts_skip (ctx : StreamCtx) :
    ((frame_skip_no_pts ctx).1 = true ↔
        (ctx.frame_skip_ratio_q ≤ 1 ∨
          ctx.frame_skip_ratio_q ≤ ctx.frame_skip_accumulator + 1)) ∧
      (frame_skip_no_pts ctx).2.frame_skip_accumulator =
        (if 1 < ctx.frame_skip_ratio_q ∧
            ctx.frame_skip_ratio_q ≤ ctx.frame_skip_accumulator + 1 then
          ctx.frame_skip_accumulator + 1 - ctx.frame_skip_ratio_q
        else ctx.frame_skip_accumulator + 1) := by
  unfold frame_skip_no_pts
  rcases le_or_lt ctx.frame_skip_ratio_q 1 with h1 | h1
  · simp only [if_pos h1]
    constructor
    · simp [h1]
    · rw [if_neg]
      rintro ⟨hlt, _⟩
      exact absurd h1 (not_le.mpr hlt)
  · rcases le_or_lt ctx.frame_skip_ratio_q (ctx.frame_skip_accumulator + 1) with h2 | h2
    · simp only [if_neg (not_le.mpr h1), if_pos h2]
      refine ⟨by simp [h2], ?_⟩
      rw [if_pos (And.intro h1 h2)]
    · simp only [if_neg (not_le.mpr h1), if_neg (not_le.mpr h2)]
      constructor
      · simp [not_le.mpr h1, not_le.mpr h2, le_of_lt]
      · rw [if_neg]
        rintro ⟨_, hle⟩
        exact absurd hle (not_le.mpr h2)

/-- Target inter-frame interval used by the PTS-based send decision in
process_stream: the reciprocal of target_fps when that is positive, else
the reciprocal of the positive source estimate, else 0.033 seconds. -/
def target_interval (ctx : StreamCtx) : ℚ :=
  if 0 < ctx.target_fps then 1 / (ctx.target_fps : ℚ)
  else if 0 < ctx.estimated_source_fps then 1 / ctx.estimated_source_fps
  else 33 / 1000

/-- PTS branch of the frame-skip decision in process_stream: the frame is
sent when no anchor exists yet (first_pts unset), when no frame was sent
yet (last_sent_pts unset), or when the PTS distance to the last sent
frame, converted to seconds, has reached the target interval. -/
def frame_skip_with_pts (ctx : StreamCtx) (current_pts : Int) : Bool :=
  match ctx.first_pts with
  | none => true
  | some _ =>
    match ctx.last_sent_pts with
    | none => true
    | some lsp =>
      target_interval ctx ≤ ((current_pts - lsp : Int) : ℚ) * ctx.pts_time_base

theorem target_interval_pos (ctx : StreamCtx) : 0 < target_interval ctx := by
  unfold target_interval
  split
  · rename_i h
    have : (0 : ℚ) < (ctx.target_fps : ℚ) := by exact_mod_cast h
    positivity
  · split
    · rename_i h
      positivity
    · norm_num

/-- Claim C4: with a positive PTS time base, a frame with a valid PTS is
sent unconditionally when no anchor exists, and a later frame is sent
exactly when its PTS distance to the last sent frame times the time base
reaches the target interval; since that interval is positive, every
accepted frame has a strictly larger PTS, so last_sent_pts strictly
increases between re-anchoring events. -/
theorem c4_pts_send_decision (ctx : StreamCtx) (current_pts : Int)
    (htb : 0 < ctx.pts_time_base) :
    (ctx.first_pts = none → frame_skip_with_pts ctx current_pts = true) ∧
      (∀ f lsp, ctx.first_pts = some f → ctx.last_sent_pts = some lsp →
        ((frame_skip_with_pts ctx current_pts = true ↔
            target_interval ctx ≤
              ((current_pts - lsp : Int) : ℚ) * ctx.pts_time_base) ∧
          (frame_skip_with_pts ctx current_pts = true → lsp < current_pts))) := by
  constructor
  · intro hf
    simp [frame_skip_with_pts, hf]
  · intro f lsp hf hl
    have hdec : frame_skip_with_pts ctx current_pts =
        decide (target_interval ctx ≤
          ((current_pts - lsp : Int) : ℚ) * ctx.pts_time_base) := by
      simp [frame_skip_with_pts, hf, hl]
    constructor
    · rw [hdec]
      exact decide_eq_true_iff
    · intro hsend
      rw [hdec, decide_eq_true_iff] at hsend
      have hpos : (0 : ℚ) < ((current_pts - lsp : Int) : ℚ) * ctx.pts_time_base :=
        lt_of_lt_of_le (target_interval_pos ctx) hsend
      have hdiff : (0 : ℚ) < ((current_pts - lsp : Int) : ℚ) := by
        by_contra hle
        push_neg at hle
        nlinarith
      have : (0 : Int) < current_pts - lsp := by exact_mod_cast hdiff
      omega

/-- Concrete anchored context for the claim C4 witness: time base 1,
target 10 FPS, last sent PTS 0. -/
def c4ctx : StreamCtx :=
  { c7ctx with
      pts_time_base := 1
      first_pts := some 0
      last_sent_pts := some 0 }

/-- Witness for claim C4 at the concrete context c4ctx and current PTS 1. -/
theorem c4_witness : frame_skip_with_pts c4ctx 1 = true ∧ (0 : Int) < 1 := by
  have h := c4_pts_send_decision c4ctx 1 (by norm_num [c4ctx, c7ctx])
  have h2 := (h.2 0 0 rfl rfl).1.mpr
    (by norm_num [target_interval, c4ctx, c7ctx])
  exact ⟨h2, by norm_num⟩

/-- Result of the PTS-anchored presentation-pacing block executed in
process_stream once a frame has been selected for sending: the updated
context and the absolute monotonic instant slept to, none when the frame
is dispatched immediately. -/
structure PacingResult where
  ctx : StreamCtx
  sleep_until : Option ℚ
deriving DecidableEq

/-- PTS-anchored pacing block of process_stream (executed when the frame
has a valid PTS and the time base is positive): anchors on the first
send, re-anchors when a PTS jump beyond the threshold is detected while
last_sent_pts is valid, sleeps to the absolute target only when ahead by
more than the early-sleep threshold, and records last_sent_pts_sec. -/
def pacing_on_send (ctx : StreamCtx) (current_pts : Int) (now : ℚ) :
    PacingResult :=
  if ctx.pts_time_base ≤ 0 then ⟨ctx, none⟩
  else
    let fa : Int × ℚ :=
      match ctx.first_pts with
      | none => (current_pts, now)
      | some f => (f, ctx.playback_anchor_mono)
    let pts_sec : ℚ := ((current_pts - fa.1 : Int) : ℚ) * ctx.pts_time_base
    let faj : Int × ℚ × ℚ :=
      match ctx.last_sent_pts with
      | none => (fa.1, fa.2, pts_sec)
      | some _ =>
        if ctx.pts_jump_reset_threshold_sec < |pts_sec - ctx.last_sent_pts_sec| then
          (current_pts, now, 0)
        else (fa.1, fa.2, pts_sec)
    let target : ℚ := faj.2.1 + faj.2.2
    let sleep : Option ℚ :=
      if now - target < -ctx.early_sleep_threshold_sec then some target else none
    ⟨{ ctx with
        first_pts := some faj.1
        playback_anchor_mono := faj.2.1
        last_sent_pts_sec := faj.2.2 }, sleep⟩

/-- Spec-side pacing for claim C5, written from the claim's words: same
anchoring, but the PTS-jump re-anchor check is carried out
unconditionally, without the code's guard that last_sent_pts be valid. -/
def pacing_on_send_claimed (ctx : StreamCtx) (current_pts : Int) (now : ℚ) :
    PacingResult :=
  if ctx.pts_time_base ≤ 0 then ⟨ctx, none⟩
  else
    let fa : Int × ℚ :=
      match ctx.first_pts with
      | none => (current_pts, now)
      | some f => (f, ctx.playback_anchor_mono)
    let pts_sec : ℚ := ((current_pts - fa.1 : Int) : ℚ) * ctx.pts_time_base
    let faj : Int × ℚ × ℚ :=
      if ctx.pts_jump_reset_threshold_sec < |pts_sec - ctx.last_sent_pts_sec| then
        (current_pts, now, 0)
      else (fa.1, fa.2, pts_sec)
    let target : ℚ := faj.2.1 + faj.2.2
    let sleep : Option ℚ :=
      if now - target < -ctx.early_sleep_threshold_sec then some target else none
    ⟨{ ctx with
        first_pts := some faj.1
        playback_anchor_mono := faj.2.1
        last_sent_pts_sec := faj.2.2 }, sleep⟩

/-- Claim C5: on every reachable context (one where an unset last_sent_pts
implies an unset anchor, which holds throughout process_stream because
both are reset together), the code's pacing block coincides with the
pacing described by the claim, including the re-anchor rule, the
early-sleep rule and the final recording of last_sent_pts_sec. -/
theorem c5_pacing_refines_claim (ctx : StreamCtx) (current_pts : Int) (now : ℚ)
    (hinv : ctx.last_sent_pts = none → ctx.first_pts = none) :
    pacing_on_send ctx current_pts now =
      pacing_on_send_claimed ctx current_pts now := by
  unfold pacing_on_send pacing_on_send_claimed
  rcases htb : ctx.last_sent_pts with _ | lsp
  · have hf : ctx.first_pts = none := hinv htb
    simp only [hf, htb]
    rcases le_or_lt ctx.pts_time_base 0 with h0 | h0
    · rw [if_pos h0, if_pos h0]
    · rw [if_neg (not_le.mpr h0), if_neg (not_le.mpr h0)]
      simp only [sub_self, Int.cast_zero, zero_mul, ite_self]
  · simp only [htb]

/-- Witness for claim C5 at a concrete anchored context with a PTS jump:
the code and the claimed pacing produce identical results. -/
theorem c5_witness :
    pacing_on_send c4ctx 100 7 = pacing_on_send_claimed c4ctx 100 7 :=
  c5_pacing_refines_claim c4ctx 100 7 (by intro h; cases h)

/-- Slice of camera_thread_context_t initialized by processor_add_camera. -/
structure CamCtx where
  camera_id : Int
  url : String
  stop_requested : Bool
  active : Bool
  state : CamState
  target_fps : Int
deriving DecidableEq

/-- Process-wide registry state of camera_processor.c: the initialized
flag and the uthash table mapping camera ids to their contexts, modelled
as an association list. -/
structure ProcState where
  initialized : Bool
  contexts : List (Int × CamCtx)
deriving DecidableEq

/-- Lookup in the hash table, as find_context_by_id. -/
def find_context_by_id : List (Int × CamCtx) → Int → Option CamCtx
  | [], _ => none
  | (k, c) :: rest, camera_id =>
    if k = camera_id then some c else find_context_by_id rest camera_id

/-- Removal of the entry for an id from the hash table (HASH_DEL applied
to the entry found for that id). -/
def remove_entry : List (Int × CamCtx) → Int → List (Int × CamCtx)
  | [], _ => []
  | (k, c) :: rest, camera_id =>
    if k = camera_id then rest else (k, c) :: remove_entry rest camera_id

/-- Observable side effects of the registry operations, in program order. -/
inductive RegEvent
  | allocContext
  | allocEntry
  | insertEntry (camera_id : Int)
  | drainInterruptPipe
  | spawnWorker (camera_id : Int)
  | rollbackEntry (camera_id : Int)
  | setStopRequested (camera_id : Int)
  | interruptThread (camera_id : Int)
  | removeFromTable (camera_id : Int)
  | sleep100ms
  | freeContext (camera_id : Int)
  | freeEntry (camera_id : Int)
deriving DecidableEq

/-- Context initialization performed by processor_add_camera (step 4). -/
def init_cam_ctx (camera_id : Int) (url : String) (target_fps : Int) : CamCtx :=
  { camera_id := camera_id
    url := url
    stop_requested := false
    active := true
    state := CamState.connecting
    target_fps := if target_fps ≤ 0 then 1 else target_fps }

/-- URL validation of processor_add_camera: rejected when the pointer is
NULL (none) or the string is empty. -/
def url_invalid : Option String → Bool
  | none => true
  | some u => u.length == 0

/-- Model of processor_add_camera.  The url is none for a NULL pointer;
allocCtxOk, allocEntryOk and threadCreateOk are oracles for the two
mallocs and for pthread_create.  Returns the status code, the registry
state after the call, and the events performed. -/
def processor_add_camera (s : ProcState) (camera_id : Int) (url : Option String)
    (target_fps : Int) (allocCtxOk allocEntryOk threadCreateOk : Bool) :
    Int × ProcState × List RegEvent :=
  if s.initialized = false then (-1, s, [])
  else if url_invalid url = true then (-3, s, [])
  else if (find_context_by_id s.contexts camera_id).isSome then (-4, s, [])
  else if allocCtxOk = false then (-5, s, [])
  else if allocEntryOk = false then (-5, s, [RegEvent.allocContext])
  else
    let ctx := init_cam_ctx camera_id (match url with | none => "" | some u => u) target_fps
    let inserted := (camera_id, ctx) :: s.contexts
    if threadCreateOk = false then
      (-6, { s with contexts := remove_entry inserted camera_id },
        [RegEvent.allocContext, RegEvent.allocEntry, RegEvent.insertEntry camera_id,
          RegEvent.drainInterruptPipe, RegEvent.rollbackEntry camera_id])
    else
      (0, { s with contexts := inserted },
        [RegEvent.allocContext, RegEvent.allocEntry, RegEvent.insertEntry camera_id,
          RegEvent.drainInterruptPipe, RegEvent.spawnWorker camera_id])

/-- Outcome of one pthread_tryjoin_np call. -/
inductive JoinRes
  | ok
  | busy
  | err
deriving DecidableEq

/-- Number of 100 ms sleeps performed by the bounded wait loop of
processor_stop_camera after the initial tryjoin reported EBUSY: each of
the at most fuel iterations sleeps once and then retries the join,
leaving the loop on any result other than EBUSY. -/
def join_loop_sleeps (joinAt : Nat → JoinRes) : Nat → Nat → Nat
  | _, 0 => 0
  | idx, fuel + 1 =>
    1 + (if joinAt idx = JoinRes.busy then join_loop_sleeps joinAt (idx + 1) fuel else 0)

/-- Total number of 100 ms sleeps performed by processor_stop_camera while
waiting for the worker: zero when the initial tryjoin (call index 0) does
not report EBUSY, otherwise up to 30 loop iterations. -/
def join_sleeps (joinAt : Nat → JoinRes) : Nat :=
  if joinAt 0 = JoinRes.busy then join_loop_sleeps joinAt 1 30 else 0

/-- Model of processor_stop_camera: joinAt gives the outcome of the n-th
pthread_tryjoin_np call on the worker.  Returns the status code, the
registry state after the call, and the events performed in order. -/
def processor_stop_camera (s : ProcState) (camera_id : Int)
    (joinAt : Nat → JoinRes) : Int × ProcState × List RegEvent :=
  if s.initialized = false then (-1, s, [])
  else
    match find_context_by_id s.contexts camera_id with
    | none => (-2, s, [])
    | some _ =>
      (0, { s with contexts := remove_entry s.contexts camera_id },
        [RegEvent.setStopRequested camera_id, RegEvent.interruptThread camera_id,
          RegEvent.removeFromTable camera_id] ++
          List.replicate (join_sleeps joinAt) RegEvent.sleep100ms ++
          [RegEvent.freeContext camera_id, RegEvent.freeEntry camera_id])

theorem join_loop_sleeps_le (joinAt : Nat → JoinRes) :
    ∀ fuel idx, join_loop_sleeps joinAt idx fuel ≤ fuel := by
  intro fuel
  induction fuel with
  | zero => intro idx; simp [join_loop_sleeps]
  | succ n ih =>
    intro idx
    unfold join_loop_sleeps
    split
    · have := ih (idx + 1)
      omega
    · omega

theorem join_sleeps_le_30 (joinAt : Nat → JoinRes) : join_sleeps joinAt ≤ 30 := by
  unfold join_sleeps
  split
  · exact join_loop_sleeps_le joinAt 30 1
  · omega

/-- Claim C1: stopping a registered camera on an initialized processor
returns 0, leaves the table without the id's entry, and performs, in
order, the stop-flag store, the interruption notification and the table
removal before any waiting; the wait consists of at most 30 sleeps of
100 ms (3 s), and the context and hash entry are freed afterwards
whatever the join outcome was. -/
theorem c1_stop_camera_spec (s : ProcState) (camera_id : Int)
    (joinAt : Nat → JoinRes) (ctx : CamCtx)
    (hinit : s.initialized = true)
    (hfind : find_context_by_id s.contexts camera_id = some ctx) :
    processor_stop_camera s camera_id joinAt =
      (0, { s with contexts := remove_entry s.contexts camera_id },
        [RegEvent.setStopRequested camera_id, RegEvent.interruptThread camera_id,
          RegEvent.removeFromTable camera_id] ++
          List.replicate (join_sleeps joinAt) RegEvent.sleep100ms ++
          [RegEvent.freeContext camera_id, RegEvent.freeEntry camera_id]) ∧
      join_sleeps joinAt ≤ 30 := by
  refine ⟨?_, join_sleeps_le_30 joinAt⟩
  unfold processor_stop_camera
  rw [hinit]
  simp [hfind]

/-- Concrete registry state for the claim C1 and C2 witnesses. -/
def wState : ProcState :=
  { initialized := true
    contexts := [(7, init_cam_ctx 7 "rtsp_demo" 10)] }

/-- Witness for claim C1: stopping camera 7 on the concrete state wState
with a worker that joins immediately returns 0, empties the table, and
sleeps zero times. -/
theorem c1_witness :
    processor_stop_camera wState 7 (fun _ => JoinRes.ok) =
      (0, { wState with contexts := [] },
        [RegEvent.setStopRequested 7, RegEvent.interruptThread 7,
          RegEvent.removeFromTable 7] ++
          List.replicate (join_sleeps (fun _ => JoinRes.ok)) RegEvent.sleep100ms ++
          [RegEvent.freeContext 7, RegEvent.freeEntry 7]) ∧
      join_sleeps (fun _ => JoinRes.ok) ≤ 30 := by
  have h := c1_stop_camera_spec wState 7 (fun _ => JoinRes.ok)
    (init_cam_ctx 7 "rtsp_demo" 10) rfl (by decide)
  simpa [wState, remove_entry] using h

/-- Claim C9: characterization of the processor_add_camera status codes:
-1 exactly when uninitialized; -3 exactly when initialized with a null or
empty URL; -4 exactly when the id is currently registered; -5 exactly
when one of the two allocations fails; -6 exactly when only thread
creation fails, in which case the just-inserted entry is removed again
(the state is rolled back to the original); and 0 exactly when the
context was allocated, inserted, the stale interruption notifications
drained and a worker spawned, as recorded by the event trace. -/
theorem c9_add_camera_codes (s : ProcState) (camera_id : Int)
    (url : Option String) (target_fps : Int) (a b t : Bool) :
    (processor_add_camera s camera_id url target_fps a b t).1 =
        (if s.initialized = false then -1
          else if url_invalid url = true then -3
          else if (find_context_by_id s.contexts camera_id).isSome then -4
          else if a = false ∨ b = false then -5
          else if t = false then -6
          else 0) ∧
      ((processor_add_camera s camera_id url target_fps a b t).1 = -6 →
        (processor_add_camera s camera_id url target_fps a b t).2.1 = s ∧
          (processor_add_camera s camera_id url target_fps a b t).2.2 =
            [RegEvent.allocContext, RegEvent.allocEntry,
              RegEvent.insertEntry camera_id, RegEvent.drainInterruptPipe,
              RegEvent.rollbackEntry camera_id]) ∧
      ((processor_add_camera s camera_id url target_fps a b t).1 = 0 →
        (processor_add_camera s camera_id url target_fps a b t).2.1.contexts =
            (camera_id,
              init_cam_ctx camera_id (match url with | none => "" | some u => u)
                target_fps) :: s.contexts ∧
          (processor_add_camera s camera_id url target_fps a b t).2.2 =
            [RegEvent.allocContext, RegEvent.allocEntry,
              RegEvent.insertEntry camera_id, RegEvent.drainInterruptPipe,
              RegEvent.spawnWorker camera_id]) := by
  obtain ⟨ini, ctxs⟩ := s
  unfold processor_add_camera
  rcases ini with _ | _
  · simp
  · simp only [Bool.true_eq_false, if_false]
    rcases hu : url_invalid url with _ | _
    · simp only [Bool.false_eq_true, if_false, if_true]
      rcases hf : (find_context_by_id ctxs camera_id).isSome with _ | _
      · simp only [Bool.false_eq_true, if_false, if_true]
        rcases ha : a with _ | _
        · simp
        · rcases hb : b with _ | _
          · simp
          · rcases ht : t with _ | _
            · simp [remove_entry]
            · simp
      · simp
    · simp

/-- Sample nonempty URL used by the registry witnesses. -/
def sampleUrl : String := "rtsp_demo_stream"

/-- Witness for claim C9 on the concrete state wState: adding camera 9
with a valid URL and all oracles succeeding returns 0 and prepends the
new entry. -/
theorem c9_witness :
    (processor_add_camera wState 9 (some sampleUrl) 15 true true true).1 = 0 ∧
      (processor_add_camera wState 9 (some sampleUrl) 15 true true true).2.1.contexts =
        (9, init_cam_ctx 9 sampleUrl 15) :: wState.contexts := by
  have h := c9_add_camera_codes wState 9 (some sampleUrl) 15 true true true
  have hc : (processor_add_camera wState 9 (some sampleUrl) 15 true true true).1 = 0 := by
    rw [h.1]
    decide
  exact ⟨hc, (h.2.2 hc).1⟩

/-- One add-then-stop round for one camera id, every fallible call
succeeding. -/
def add_stop_cycle (camera_id : Int) (url : Option String) (target_fps : Int)
    (joinAt : Nat → JoinRes) (s : ProcState) : ProcState :=
  (processor_stop_camera
    (processor_add_camera s camera_id url target_fps true true true).2.1
    camera_id joinAt).2.1

theorem add_stop_cycle_fixed (s : ProcState) (camera_id : Int)
    (url : Option String) (target_fps : Int) (joinAt : Nat → JoinRes)
    (hinit : s.initialized = true) (hurl : url_invalid url = false)
    (hfree : find_context_by_id s.contexts camera_id = none) :
    add_stop_cycle camera_id url target_fps joinAt s = s := by
  obtain ⟨ini, ctxs⟩ := s
  simp only at hinit hfree
  subst hinit
  unfold add_stop_cycle processor_add_camera processor_stop_camera
  simp [hurl, hfree, find_context_by_id, remove_entry]

theorem stop_missing_eq_neg2 (s : ProcState) (camera_id : Int)
    (joinAt : Nat → JoinRes) (hinit : s.initialized = true)
    (hfree : find_context_by_id s.contexts camera_id = none) :
    (processor_stop_camera s camera_id joinAt).1 = -2 := by
  unfold processor_stop_camera
  simp [hinit, hfree]

theorem add_free_ne_neg4 (s : ProcState) (camera_id : Int)
    (url : Option String) (target_fps : Int) (a b t : Bool)
    (hfree : find_context_by_id s.contexts camera_id = none) :
    (processor_add_camera s camera_id url target_fps a b t).1 ≠ -4 := by
  unfold processor_add_camera
  split
  · simp
  · split
    · simp
    · rw [hfree]
      simp only [Option.isSome_none, Bool.false_eq_true, if_false]
      split
      · simp
      · split
        · simp
        · split
          · simp
          · simp

theorem add_free_succeeds (s : ProcState) (camera_id : Int)
    (url : Option String) (target_fps : Int)
    (hinit : s.initialized = true) (hurl : url_invalid url = false)
    (hfree : find_context_by_id s.contexts camera_id = none) :
    (processor_add_camera s camera_id url target_fps true true true).1 = 0 := by
  unfold processor_add_camera
  simp [hinit, hurl, hfree]

/-- Claim C2: starting from an initialized registry in which an id is
unregistered and using a valid URL, any number of add-then-stop rounds
leaves the registry unchanged; after any such sequence the mapping does
not contain the id, an immediately following stop returns -2, an
immediately following add never returns -4 for any oracle outcomes, and
an add with succeeding allocations and thread creation returns 0. -/
theorem c2_add_stop_reuse (s : ProcState) (camera_id : Int)
    (url : Option String) (target_fps : Int) (joinAt : Nat → JoinRes) (n : Nat)
    (hinit : s.initialized = true) (hurl : url_invalid url = false)
    (hfree : find_context_by_id s.contexts camera_id = none) :
    find_context_by_id
        ((add_stop_cycle camera_id url target_fps joinAt)^[n] s).contexts
        camera_id = none ∧
      (processor_stop_camera
          ((add_stop_cycle camera_id url target_fps joinAt)^[n] s)
          camera_id joinAt).1 = -2 ∧
      (∀ a b t : Bool,
        (processor_add_camera
            ((add_stop_cycle camera_id url target_fps joinAt)^[n] s)
            camera_id url target_fps a b t).1 ≠ -4) ∧
      (processor_add_camera
          ((add_stop_cycle camera_id url target_fps joinAt)^[n] s)
          camera_id url target_fps true true true).1 = 0 := by
  have hfix : (add_stop_cycle camera_id url target_fps joinAt)^[n] s = s :=
    Function.iterate_fixed
      (add_stop_cycle_fixed s camera_id url target_fps joinAt hinit hurl hfree) n
  rw [hfix]
  exact ⟨hfree, stop_missing_eq_neg2 s camera_id joinAt hinit hfree,
    fun a b t => add_free_ne_neg4 s camera_id url target_fps a b t hfree,
    add_free_succeeds s camera_id url target_fps hinit hurl hfree⟩

/-- Witness for claim C2: two add-then-stop rounds for camera 3 on an
initialized empty registry, followed by the three checks. -/
theorem c2_witness :
    find_context_by_id
        ((add_stop_cycle 3 (some sampleUrl) 12 (fun _ => JoinRes.ok))^[2]
          { initialized := true, contexts := [] }).contexts 3 = none ∧
      (processor_stop_camera
          ((add_stop_cycle 3 (some sampleUrl) 12 (fun _ => JoinRes.ok))^[2]
            { initialized := true, contexts := [] }) 3 (fun _ => JoinRes.ok)).1 = -2 ∧
      (∀ a b t : Bool,
        (processor_add_camera
            ((add_stop_cycle 3 (some sampleUrl) 12 (fun _ => JoinRes.ok))^[2]
              { initialized := true, contexts := [] }) 3 (some sampleUrl) 12
            a b t).1 ≠ -4) ∧
      (processor_add_camera
          ((add_stop_cycle 3 (some sampleUrl) 12 (fun _ => JoinRes.ok))^[2]
            { initialized := true, contexts := [] }) 3 (some sampleUrl) 12
          true true true).1 = 0 :=
  c2_add_stop_reuse { initialized := true, contexts := [] } 3 (some sampleUrl) 12
    (fun _ => JoinRes.ok) 2 rfl (by decide) rfl

/-- Reconnection back-off constants of camera_thread.c. -/
def RECONNECT_DELAY_BASE : Int := 2

/-- Minimum reconnection delay in seconds. -/
def MIN_RECONNECT_DELAY : Int := 1

/-- Maximum reconnection delay in seconds. -/
def MAX_RECONNECT_DELAY : Int := 30

/-- Delay computation of the handle_reconnect path in run_camera_loop:
base times the attempt count, clamped to the min and max delays. -/
def reconnect_delay (attempts : Int) : Int :=
  let d0 := RECONNECT_DELAY_BASE * attempts
  let d1 := if d0 < MIN_RECONNECT_DELAY then MIN_RECONNECT_DELAY else d0
  if MAX_RECONNECT_DELAY < d1 then MAX_RECONNECT_DELAY else d1

/-- One pass through the reconnection path: the attempt counter is
incremented and the wait is computed from the incremented value. -/
def reconnect_step (attempts : Int) : Int × Int :=
  (attempts + 1, reconnect_delay (attempts + 1))

/-- Attempt counter after n consecutive failed connections starting from
a fresh (or just-reconnected) pipeline, whose counter is 0. -/
def attempts_after_failures : Nat → Int
  | 0 => 0
  | n + 1 => (reconnect_step (attempts_after_failures n)).1

/-- Successful connection resets the attempt counter
(run_camera_loop, after initialization succeeds). -/
def reconnect_attempts_on_success : Int := 0

/-- Reconnect wait loop of run_camera_loop: before each 100 ms sleep the
stop flag is checked; the loop runs delay_s seconds, ten slices per
second, and aborts at the first slice whose stop check fires.  Returns
the number of slices slept and whether the wait was cut short by stop. -/
def reconnect_wait_go (stop : Nat → Bool) : Nat → Nat → Nat × Bool
  | 0, slept => (slept, false)
  | fuel + 1, slept =>
    if stop slept then (slept, true)
    else reconnect_wait_go stop fuel (slept + 1)

/-- Full reconnect wait for a delay of delay_s seconds. -/
def reconnect_wait (delay_s : Nat) (stop : Nat → Bool) : Nat × Bool :=
  reconnect_wait_go stop (delay_s * 10) 0

theorem reconnect_wait_go_no_stop (fuel slept : Nat) :
    reconnect_wait_go (fun _ => false) fuel slept = (slept + fuel, false) := by
  induction fuel generalizing slept with
  | zero => simp [reconnect_wait_go]
  | succ n ih =>
    unfold reconnect_wait_go
    rw [if_neg (by simp)]
    rw [ih (slept + 1)]
    have harith : slept + 1 + n = slept + (n + 1) := by omega
    rw [harith]

theorem attempts_after_failures_eq (n : Nat) : attempts_after_failures n = n := by
  induction n with
  | zero => rfl
  | succ k ih => simp [attempts_after_failures, reconnect_step, ih]

/-- Claim C8: on the n-th consecutive failed connection the attempt
counter reaches n and the computed wait is the clamp of 2n to the range
from 1 to 30 seconds, which for n at least 1 is the minimum of 2n and 30
(so the delays run 2 s, 4 s, 6 s and cap at 30 s); a successful
connection resets the counter to 0; and the wait is slept in 100 ms
slices each preceded by a stop check, so an unstopped wait performs
exactly ten slices per second of delay. -/
theorem c8_reconnect_backoff (n : Nat) (hn : 1 ≤ n) :
    attempts_after_failures n = n ∧
      (reconnect_step (attempts_after_failures (n - 1))).2 =
        min (2 * (n : Int)) 30 ∧
      reconnect_attempts_on_success = 0 ∧
      (∀ d : Nat, reconnect_wait d (fun _ => false) = (d * 10, false)) := by
  refine ⟨attempts_after_failures_eq n, ?_, rfl, ?_⟩
  · rw [attempts_after_failures_eq (n - 1)]
    have hc : ((n - 1 : Nat) : Int) + 1 = (n : Int) := by
      rw [Nat.cast_sub hn]
      push_cast
      ring
    simp only [reconnect_step, reconnect_delay, RECONNECT_DELAY_BASE,
      MIN_RECONNECT_DELAY, MAX_RECONNECT_DELAY, hc]
    have h1 : (1 : Int) ≤ (n : Int) := by exact_mod_cast hn
    split_ifs <;> omega
  · intro d
    unfold reconnect_wait
    rw [reconnect_wait_go_no_stop]
    simp

/-- Witness for claim C8 at n = 3: the third consecutive failure waits
6 s, slept as 60 slices of 100 ms. -/
theorem c8_witness :
    attempts_after_failures 3 = 3 ∧
      (reconnect_step (attempts_after_failures 2)).2 = min (2 * (3 : Int)) 30 ∧
      reconnect_attempts_on_success = 0 ∧
      (∀ d : Nat, reconnect_wait d (fun _ => false) = (d * 10, false)) :=
  c8_reconnect_backoff 3 (by omega)

/-- One pool descriptor (callback_frame_data_t): buf records whether the
plane-0 pixel pointer is non-null. -/
structure PoolSlot where
  ref_count : Int
  buf : Bool
  linesize : Int
  buffer_size : Int
  pts : Int
  width : Int
  height : Int
  camera_id : Int
deriving DecidableEq

/-- Delivery-pool state of callback_utils.c: the descriptor array, the
stack of free indices (g_pool_indices up to g_pool_free_count) and the
initialized flag.  The pool size is the length of slots. -/
structure PoolState where
  initialized : Bool
  slots : List PoolSlot
  free_indices : List Nat
deriving DecidableEq

/-- Array read of the descriptor at an index. -/
def get_slot : List PoolSlot → Nat → Option PoolSlot
  | [], _ => none
  | s :: _, 0 => some s
  | _ :: rest, i + 1 => get_slot rest i

/-- Array write of the descriptor at an index. -/
def set_slot : List PoolSlot → Nat → PoolSlot → List PoolSlot
  | [], _, _ => []
  | _ :: rest, 0, x => x :: rest
  | s :: rest, i + 1, x => s :: set_slot rest i x

/-- Observable effects of callback_pool_return_data. -/
inductive PoolEvent
  | freePixelBuffer (idx : Nat)
  | pushFreeIndex (idx : Nat)
  | logPoolFullError
deriving DecidableEq

/-- Model of callback_pool_return_data.  The argument is the slot index
the released descriptor points at, or none for a NULL pointer.  With the
pool uninitialized or a NULL pointer nothing happens to the pool.
Otherwise the pixel buffer is freed if present (zeroing the stride and
byte size), pts, width and height are cleared, and, under the lock, the
index is pushed onto the free stack with reference count 0 whenever the
stack is not full, else an error is logged. -/
def callback_pool_return_data (p : PoolState) (data : Option Nat) :
    PoolState × List PoolEvent :=
  if p.initialized = false then (p, [])
  else
    match data with
    | none => (p, [])
    | some i =>
      match get_slot p.slots i with
      | none => (p, [])
      | some sl =>
        let sl1 :=
          if sl.buf then { sl with buf := false, linesize := 0, buffer_size := 0 }
          else sl
        let sl2 := { sl1 with pts := 0, width := 0, height := 0 }
        let ev1 : List PoolEvent :=
          if sl.buf then [PoolEvent.freePixelBuffer i] else []
        if p.free_indices.length < p.slots.length then
          ({ p with
              slots := set_slot p.slots i { sl2 with ref_count := 0 }
              free_indices := p.free_indices ++ [i] },
            ev1 ++ [PoolEvent.pushFreeIndex i])
        else
          ({ p with slots := set_slot p.slots i sl2 },
            ev1 ++ [PoolEvent.logPoolFullError])

/-- A descriptor currently owned by the host: reference count 1 and a
live pixel buffer. -/
def heldSlot (camera_id : Int) : PoolSlot :=
  { ref_count := 1
    buf := true
    linesize := 1920 * 3
    buffer_size := 1920 * 3 * 1080
    pts := 42
    width := 1920
    height := 1080
    camera_id := camera_id }

/-- Concrete pool for the claim C3 counterexample: two descriptors, both
handed to the host, empty free stack. -/
def c3pool : PoolState :=
  { initialized := true
    slots := [heldSlot 5, heldSlot 6]
    free_indices := [] }

/-- Counterexample to claim C3: after descriptor 1 of c3pool is released
once, releasing it a second time is not a no-op: the code (whose
double-release guard is commented out) pushes index 1 onto the free
stack again, leaving the duplicated stack 1, 1, and it logs no warning. -/
theorem c3_counterexample :
    (callback_pool_return_data
        (callback_pool_return_data c3pool (some 1)).1 (some 1)).1 ≠
        (callback_pool_return_data c3pool (some 1)).1 ∧
      (callback_pool_return_data
          (callback_pool_return_data c3pool (some 1)).1 (some 1)).1.free_indices =
        [1, 1] := by
  constructor
  · decide
  · decide

theorem get_set_slot_self (l : List PoolSlot) (i : Nat) (x sl : PoolSlot)
    (h : get_slot l i = some sl) : get_slot (set_slot l i x) i = some x := by
  induction l generalizing i with
  | nil => simp [get_slot] at h
  | cons s rest ih =>
    cases i with
    | zero => simp [get_slot, set_slot]
    | succ j =>
      simp only [get_slot, set_slot] at h ⊢
      exact ih j h

/-- Claim C3 (amended): releasing a held descriptor frees its pixel
buffer, zeroes the stride and byte size, and pushes its index with
reference count 0 when the free stack is not full; releasing the same
descriptor again frees nothing (the pixel pointer is already null) but,
when the free stack is still not full, pushes the index a second time,
duplicating it, with no warning logged; releasing a NULL pointer, or
releasing against an uninitialized pool, changes nothing. -/
theorem c3_release_spec (p : PoolState) (i : Nat) (sl : PoolSlot)
    (hinit : p.initialized = true)
    (hslot : get_slot p.slots i = some sl)
    (hheld : sl.buf = true)
    (hroom : p.free_indices.length < p.slots.length) :
    callback_pool_return_data p (some i) =
        ({ p with
            slots := set_slot p.slots i
              { sl with
                  buf := false
                  linesize := 0
                  buffer_size := 0
                  pts := 0
                  width := 0
                  height := 0
                  ref_count := 0 }
            free_indices := p.free_indices ++ [i] },
          [PoolEvent.freePixelBuffer i, PoolEvent.pushFreeIndex i]) ∧
      (∀ q : PoolState, ∀ sl' : PoolSlot, q.initialized = true →
        get_slot q.slots i = some sl' → sl'.buf = false →
        q.free_indices.length < q.slots.length →
        callback_pool_return_data q (some i) =
          ({ q with
              slots := set_slot q.slots i
                { sl' with
                    pts := 0
                    width := 0
                    height := 0
                    ref_count := 0 }
              free_indices := q.free_indices ++ [i] },
            [PoolEvent.pushFreeIndex i])) ∧
      callback_pool_return_data p none = (p, []) ∧
      (∀ q : PoolState, q.initialized = false →
        ∀ d : Option Nat, callback_pool_return_data q d = (q, [])) := by
  refine ⟨?_, ?_, ?_, ?_⟩
  · unfold callback_pool_return_data
    rw [hinit]
    simp [hslot, hheld, hroom]
  · intro q sl' hqi hqs hqb hqr
    unfold callback_pool_return_data
    rw [hqi]
    simp [hqs, hqb, hqr]
  · unfold callback_pool_return_data
    rw [hinit]
    simp
  · intro q hq d
    unfold callback_pool_return_data
    rw [hq]
    simp

/-- Witness for claim C3: releasing descriptor 0 of a one-slot pool whose
free stack is empty, plus the no-op checks. -/
theorem c3_witness :
    callback_pool_return_data
        { initialized := true, slots := [heldSlot 4], free_indices := [] }
        (some 0) =
      ({ initialized := true
         slots := [{ heldSlot 4 with
            buf := false
            linesize := 0
            buffer_size := 0
            pts := 0
            width := 0
            height := 0
            ref_count := 0 }]
         free_indices := [0] },
        [PoolEvent.freePixelBuffer 0, PoolEvent.pushFreeIndex 0]) := by
  have h := c3_release_spec
    { initialized := true, slots := [heldSlot 4], free_indices := [] }
    0 (heldSlot 4) rfl rfl rfl (by decide)
  simpa [set_slot] using h.1

end CameraPipeline
